import Mathlib

/-!
Shallow embedding of the order/payment/refund workflow of the Spectrax
e-commerce backend (order controller: placeOrder, placeWalletOrder,
orderStatusUpdate, returnOrderStatusUpdate, verifyRazorpayPayment,
processRefund).  Mongo documents become Lean structures, the document
stores become lists inside an explicit `DB` state, and each controller
becomes a pure function from a `DB` (plus the request) to an HTTP status
code and the resulting `DB`.  Money amounts are rationals (the source uses
JS numbers and divides by 100 for percentage coupons); stock counters are
integers (the source can drive them negative via $inc).  Fresh Mongo
ObjectIds are modelled by a `freshId` counter carried in the `DB`.
-/

namespace Spectrax

/-! ## Data model -/

/-- A product variant: own stock counter and price (`variants` entries of the
product schema). -/
structure Variant where
  variantId : Nat
  price : Rat
  availableQuantity : Int
deriving DecidableEq

/-- A line item of an order request / order document (`products` entries). -/
structure OrderItem where
  productId : Nat
  variantId : Nat
  name : String
  quantity : Int
  variant : Variant
deriving DecidableEq

/-- A catalog product with its variants. -/
structure Product where
  productId : Nat
  variants : List Variant
deriving DecidableEq

/-- A coupon document (fields as in the coupon schema: `name`, `isListed`,
`expireOn`, `CouponType`, `offerPrice`). -/
structure Coupon where
  name : String
  isListed : String
  expireOn : Int
  CouponType : String
  offerPrice : Rat
deriving DecidableEq

/-- The applied-coupon snapshot stored on an order. -/
structure CouponSnapshot where
  code : String
  discountType : String
  discountAmount : Rat
deriving DecidableEq

/-- The razorpay sub-document of an order. -/
structure RzpInfo where
  orderId : String
  paymentId : Option String
  signature : Option String
deriving DecidableEq

/-- The `returnDetails` sub-document of an order. -/
structure ReturnDetails where
  reason : String
  description : String
  returnDate : Int
deriving DecidableEq

/-- An order document. -/
structure Order where
  orderId : Nat
  userId : Nat
  products : List OrderItem
  shippingAddress : String
  paymentMethod : String
  totalAmount : Rat
  coupon : Option CouponSnapshot
  discountAmount : Rat
  finalAmount : Rat
  orderDate : Int
  orderStatus : String
  paymentStatus : String
  razorpay : Option RzpInfo
  returnDetails : Option ReturnDetails
deriving DecidableEq

/-- A wallet ledger entry. -/
structure Transaction where
  transaction_id : Nat
  type : String
  amount : Rat
  description : String
  status : String
deriving DecidableEq

/-- A per-user wallet: balance plus append-only transaction log. -/
structure Wallet where
  userId : Nat
  balance : Rat
  transactions : List Transaction
deriving DecidableEq

/-- A cart document (item contents are irrelevant to the order workflow
beyond being cleared). -/
structure Cart where
  userId : Nat
  items : List Nat
deriving DecidableEq

/-- The document stores touched by the order workflow, plus a supply of
fresh ObjectIds. -/
structure DB where
  products : List Product
  orders : List Order
  wallets : List Wallet
  carts : List Cart
  coupons : List Coupon
  freshId : Nat
deriving DecidableEq

/-! ## Store primitives -/

/-- Lookup `Wallet.findOne({ userId })`. -/
def walletFind (ws : List Wallet) (uid : Nat) : Option Wallet :=
  ws.find? (fun w => w.userId == uid)

/-- Persisting a modified wallet document: replace the first wallet of that
user (the one `findOne` returned). -/
def walletReplaceFirst : List Wallet → Nat → Wallet → List Wallet
  | [], _, _ => []
  | w :: ws, uid, w' =>
    if w.userId == uid then w' :: ws else w :: walletReplaceFirst ws uid w'

/-- Lookup `Order.findById(id)`. -/
def orderFind (os : List Order) (id : Nat) : Option Order :=
  os.find? (fun o => o.orderId == id)

/-- Persisting a modified order document: replace the first order with that
id. -/
def orderReplaceFirst : List Order → Nat → Order → List Order
  | [], _, _ => []
  | o :: os, id, o' =>
    if o.orderId == id then o' :: os else o :: orderReplaceFirst os id o'

/-- Update `Cart.findOneAndUpdate({ userId }, { $set: { items: [] } })`. -/
def clearCart : List Cart → Nat → List Cart
  | [], _ => []
  | c :: cs, uid =>
    if c.userId == uid then { c with items := [] } :: cs else c :: clearCart cs uid

/-- Whether some variant of the product has the given id
(`'variants._id': vid` as a query condition on the product). -/
def productHasVariant (p : Product) (vid : Nat) : Bool :=
  p.variants.any (fun v => v.variantId == vid)

/-- Increment (`$inc`) through the positional operator: add `delta` to the
availableQuantity of the first variant with the given id. -/
def variantIncFirst : List Variant → Nat → Int → List Variant
  | [], _, _ => []
  | v :: vs, vid, delta =>
    if v.variantId == vid then
      { v with availableQuantity := v.availableQuantity + delta } :: vs
    else v :: variantIncFirst vs vid delta

/-- Update `Product.findOneAndUpdate({_id: pid, 'variants._id': vid},
{$inc: {'variants.$.availableQuantity': delta}})`: update the first product
matching both conditions; no-op when none matches. -/
def productIncFirst : List Product → Nat → Nat → Int → List Product
  | [], _, _, _ => []
  | p :: ps, pid, vid, delta =>
    if p.productId == pid && productHasVariant p vid then
      { p with variants := variantIncFirst p.variants vid delta } :: ps
    else p :: productIncFirst ps pid vid delta

/-- The restock step of the generic `Returned` branch:
`Product.findOne({_id: pid})`, then `findIndex` on the variants and an
in-place `+=` followed by `save()`; a missing product or variant is silently
skipped. -/
def productIncReturnOne : List Product → Nat → Nat → Int → List Product
  | [], _, _, _ => []
  | p :: ps, pid, vid, delta =>
    if p.productId == pid then
      (if productHasVariant p vid then
        { p with variants := variantIncFirst p.variants vid delta }
      else p) :: ps
    else p :: productIncReturnOne ps pid vid delta

/-- Issue one per-item stock update (`productIncFirst`) for every line item,
with `f item` as the applied delta. -/
def stockFold (ps : List Product) (items : List OrderItem) (f : OrderItem → Int) :
    List Product :=
  match items with
  | [] => ps
  | i :: rest => stockFold (productIncFirst ps i.productId i.variantId (f i)) rest f

/-- The per-item stock updates of the generic `Returned` branch. -/
def stockFoldReturn (ps : List Product) (items : List OrderItem) : List Product :=
  match items with
  | [] => ps
  | i :: rest => stockFoldReturn (productIncReturnOne ps i.productId i.variantId i.quantity) rest

/-- The availability check of order creation:
`Product.findOne({_id: pid, 'variants._id': vid,
'variants.availableQuantity': {$gte: quantity}})`.  The query has no
`$elemMatch`, so under Mongo semantics each array condition may be
satisfied by a DIFFERENT variant: the product matches when some variant has
the requested id and some (possibly other) variant has
`availableQuantity ≥ quantity`. -/
def stockOk (ps : List Product) (item : OrderItem) : Bool :=
  ps.any (fun p => p.productId == item.productId &&
    (p.variants.any (fun v => v.variantId == item.variantId) &&
      p.variants.any (fun v => decide (item.quantity ≤ v.availableQuantity))))

/-! ## Observation helpers -/

/-- The available quantity of a variant as seen through `findOne` by product
id then variant id (0 when absent). -/
def qtyOf (ps : List Product) (pid vid : Nat) : Int :=
  match ps.find? (fun p => p.productId == pid) with
  | some p =>
    match p.variants.find? (fun v => v.variantId == vid) with
    | some v => v.availableQuantity
    | none => 0
  | none => 0

/-- The balance of a user's wallet (0 when the user has no wallet). -/
def balanceOf (ws : List Wallet) (uid : Nat) : Rat :=
  match walletFind ws uid with
  | some w => w.balance
  | none => 0

/-- The transaction log of a user's wallet ([] when the user has no
wallet). -/
def txsOf (ws : List Wallet) (uid : Nat) : List Transaction :=
  match walletFind ws uid with
  | some w => w.transactions
  | none => []

/-- The status of an order looked up by id. -/
def orderStatusOf (os : List Order) (id : Nat) : Option String :=
  (orderFind os id).map Order.orderStatus

/-- The returnDetails of an order looked up by id. -/
def returnDetailsOf (os : List Order) (id : Nat) : Option ReturnDetails :=
  match orderFind os id with
  | some o => o.returnDetails
  | none => none

/-! ## processRefund -/

/-- The transaction record pushed by `processRefund`. -/
def refundTx (txid : Nat) (order : Order) : Transaction :=
  { transaction_id := txid
    type := "refund"
    amount := order.finalAmount
    description := "Refund for order " ++ toString order.orderId
    status := "completed" }

/-- The helper `processRefund(order)`: credit `order.finalAmount` to the order owner's
wallet, creating the wallet when absent, and append one refund transaction;
returns the new state and the saved wallet. -/
def processRefund (db : DB) (order : Order) : DB × Wallet :=
  let refundAmount := order.finalAmount
  match walletFind db.wallets order.userId with
  | none =>
    let wallet : Wallet :=
      { userId := order.userId
        balance := refundAmount
        transactions := [refundTx db.freshId order] }
    ({ db with wallets := db.wallets ++ [wallet], freshId := db.freshId + 1 }, wallet)
  | some wallet =>
    let wallet' : Wallet :=
      { wallet with
          balance := wallet.balance + refundAmount
          transactions := wallet.transactions ++ [refundTx db.freshId order] }
    ({ db with wallets := walletReplaceFirst db.wallets order.userId wallet'
               freshId := db.freshId + 1 }, wallet')

/-! ## Coupon evaluation (inlined identically in placeOrder and
placeWalletOrder) -/

/-- Lookup `Coupon.findOne({name: code, isListed: "active", expireOn: {$gt: now}})`. -/
def couponFindOne (coupons : List Coupon) (code : String) (now : Int) : Option Coupon :=
  coupons.find? (fun c => c.name == code && c.isListed == "active" &&
    decide (now < c.expireOn))

/-- The coupon block of the order-creation entry points: look the code up
(when one is supplied and truthy), price the discount by coupon type, clamp
it to the subtotal; an absent/ineligible coupon yields (none, 0). -/
def couponDiscount (coupons : List Coupon) (couponCode : Option String) (now : Int)
    (totalAmount : Rat) : Option Coupon × Rat :=
  match couponCode with
  | none => (none, 0)
  | some code =>
    if code = "" then (none, 0)
    else
      match couponFindOne coupons code now with
      | none => (none, 0)
      | some c =>
        let d : Rat :=
          if c.CouponType = "percentage" then totalAmount * c.offerPrice / 100
          else c.offerPrice
        (some c, min d totalAmount)

/-! ## Order creation -/

/-- The fallback `finalAmount || (totalAmount - discountAmount)` with JS truthiness
(an absent or zero client finalAmount falls back to the computed one). -/
def jsOrRat (x : Option Rat) (dflt : Rat) : Rat :=
  match x with
  | some v => if v = 0 then dflt else v
  | none => dflt

/-- Result of an order-creation entry point: HTTP status, new state, and the
persisted order (when one was created). -/
structure OrderResult where
  status : Nat
  db : DB
  order : Option Order
deriving DecidableEq

/-- Request body of `placeOrder`. -/
structure PlaceOrderReq where
  userId : Nat
  products : List OrderItem
  shippingAddress : String
  paymentMethod : String
  couponCode : Option String
  totalAmount : Rat
  finalAmount : Option Rat
  razorpayOrderId : Option String
  status : Option String
deriving DecidableEq

/-- The controller `placeOrder`: validate, evaluate the coupon, check stock for every line
item, persist the order, and (unless the order is a payment failure)
decrement stock for every item and clear the cart. -/
def placeOrder (db : DB) (now : Int) (req : PlaceOrderReq) : OrderResult :=
  if req.userId = 0 ∨ req.products = [] ∨ req.shippingAddress = "" ∨
      req.paymentMethod = "" then
    ⟨400, db, none⟩
  else
    let cd := couponDiscount db.coupons req.couponCode now req.totalAmount
    let appliedCoupon := cd.1
    let discountAmount := cd.2
    if ¬ (req.products.all (stockOk db.products) = true) then ⟨400, db, none⟩
    else
      let isPF := req.status = some "Payment Failed"
      let newOrder : Order :=
        { orderId := db.freshId
          userId := req.userId
          products := req.products
          shippingAddress := req.shippingAddress
          paymentMethod := req.paymentMethod
          totalAmount := req.totalAmount
          coupon := appliedCoupon.map (fun c =>
            { code := c.name, discountType := c.CouponType
              discountAmount := discountAmount })
          discountAmount := discountAmount
          finalAmount := jsOrRat req.finalAmount (req.totalAmount - discountAmount)
          orderDate := now
          orderStatus := if isPF then "Payment Failed" else "Processing"
          paymentStatus :=
            if isPF then "Failed"
            else if req.paymentMethod = "RazorpayX" then "Completed" else "Pending"
          razorpay :=
            if req.paymentMethod = "RazorpayX" then
              req.razorpayOrderId.map (fun r =>
                { orderId := r, paymentId := none, signature := none })
            else none
          returnDetails := none }
      let db1 : DB := { db with orders := db.orders ++ [newOrder], freshId := db.freshId + 1 }
      if newOrder.orderStatus ≠ "Payment Failed" then
        ⟨201,
          { db1 with
              products := stockFold db1.products req.products (fun i => -i.quantity)
              carts := clearCart db1.carts req.userId },
          some newOrder⟩
      else ⟨201, db1, some newOrder⟩

/-- Request body of `placeWalletOrder`. -/
structure WalletOrderReq where
  userId : Nat
  products : List OrderItem
  shippingAddress : String
  couponCode : Option String
  totalAmount : Rat
  finalAmount : Rat
deriving DecidableEq

/-- The controller `placeWalletOrder`: validate, require a wallet with balance ≥
finalAmount, evaluate the coupon, check stock for every line item, debit the
wallet (balance minus finalAmount plus one "wallet" transaction), persist
the order, decrement stock, and clear the cart. -/
def placeWalletOrder (db : DB) (now : Int) (req : WalletOrderReq) : OrderResult :=
  if req.userId = 0 ∨ req.products = [] ∨ req.shippingAddress = "" then
    ⟨400, db, none⟩
  else
    match walletFind db.wallets req.userId with
    | none => ⟨400, db, none⟩
    | some userWallet =>
      if userWallet.balance < req.finalAmount then ⟨400, db, none⟩
      else
        let cd := couponDiscount db.coupons req.couponCode now req.totalAmount
        let appliedCoupon := cd.1
        let discountAmount := cd.2
        if ¬ (req.products.all (stockOk db.products) = true) then ⟨400, db, none⟩
        else
          let debitTx : Transaction :=
            { transaction_id := db.freshId
              type := "wallet"
              amount := req.finalAmount
              description := "Order payment using wallet"
              status := "completed" }
          let wallet' : Wallet :=
            { userWallet with
                balance := userWallet.balance - req.finalAmount
                transactions := userWallet.transactions ++ [debitTx] }
          let db1 : DB :=
            { db with wallets := walletReplaceFirst db.wallets req.userId wallet'
                      freshId := db.freshId + 1 }
          let newOrder : Order :=
            { orderId := db1.freshId
              userId := req.userId
              products := req.products
              shippingAddress := req.shippingAddress
              paymentMethod := "Wallet"
              totalAmount := req.totalAmount
              coupon := appliedCoupon.map (fun c =>
                { code := c.name, discountType := c.CouponType
                  discountAmount := discountAmount })
              discountAmount := discountAmount
              finalAmount :=
                if req.finalAmount = 0 then req.totalAmount - discountAmount
                else req.finalAmount
              orderDate := now
              orderStatus := "Processing"
              paymentStatus := "Completed"
              razorpay := none
              returnDetails := none }
          let db2 : DB :=
            { db1 with orders := db1.orders ++ [newOrder], freshId := db1.freshId + 1 }
          ⟨201,
            { db2 with
                products := stockFold db2.products req.products (fun i => -i.quantity)
                carts := clearCart db2.carts req.userId },
            some newOrder⟩

/-! ## Status updates -/

/-- The statuses the generic status-update endpoint accepts. -/
def validStatuses : List String :=
  ["Processing", "Confirmed", "Shipped", "Delivered", "Cancelled", "Returned"]

/-- Side effects of the `Cancelled` branch once its guard has passed:
restock every line item, then refund when the payment was a completed
RazorpayX payment (the second, more specific `else if` of the source is
subsumed by the first condition and unreachable). -/
def cancelEffects (db : DB) (o : Order) : DB :=
  let dbr : DB := { db with products := stockFold db.products o.products OrderItem.quantity }
  if o.paymentMethod = "RazorpayX" ∧ o.paymentStatus = "Completed" then
    (processRefund dbr o).1
  else dbr

/-- Side effects of the generic `Returned` branch once its guard has passed:
restock every line item (per-product findOne / findIndex / save), then
refund when paymentStatus is Completed. -/
def returnedEffects (db : DB) (o : Order) : DB :=
  let dbr : DB := { db with products := stockFoldReturn db.products o.products }
  if o.paymentStatus = "Completed" then (processRefund dbr o).1 else dbr

/-- The controller `orderStatusUpdate` (generic PATCH status endpoint): validate the
status, guard and apply the Cancelled and Returned side effects, force
paymentStatus Completed on Processing and Delivered, and save the order. -/
def orderStatusUpdate (db : DB) (id : Nat) (status : Option String) : Nat × DB :=
  match status with
  | none => (400, db)
  | some s =>
    match orderFind db.orders id with
    | none => (404, db)
    | some o =>
      if ¬ s ∈ validStatuses then (400, db)
      else if s = "Cancelled" ∧
          (o.orderStatus = "Shipped" ∨ o.orderStatus = "Delivered") then
        (400, db)
      else if s = "Returned" ∧ o.orderStatus ≠ "Delivered" then (400, db)
      else
        let db1 := if s = "Cancelled" then cancelEffects db o else db
        let db2 := if s = "Returned" then returnedEffects db1 o else db1
        let o1 := if s = "Processing" then { o with paymentStatus := "Completed" } else o
        let o2 := { o1 with orderStatus := s }
        let o3 := if o2.orderStatus = "Delivered" then
            { o2 with paymentStatus := "Completed" }
          else o2
        (200, { db2 with orders := orderReplaceFirst db2.orders id o3 })

/-- The controller `returnOrderStatusUpdate` (dedicated return endpoint): require status
"Returned", a reason and a description, and a Delivered order; record
returnDetails, refund when paymentStatus is Completed, set the status and
save.  (It performs no stock updates.) -/
def returnOrderStatusUpdate (db : DB) (now : Int) (id : Nat)
    (status returnReason returnDescription : Option String) : Nat × DB :=
  match status with
  | none => (400, db)
  | some s =>
    match orderFind db.orders id with
    | none => (404, db)
    | some o =>
      if s ≠ "Returned" then (400, db)
      else if returnReason.getD "" = "" ∨ returnDescription.getD "" = "" then (400, db)
      else if o.orderStatus ≠ "Delivered" then (400, db)
      else
        let rd : ReturnDetails :=
          { reason := returnReason.getD ""
            description := returnDescription.getD ""
            returnDate := now }
        let o1 : Order := { o with returnDetails := some rd }
        let o2 : Order := { o1 with orderStatus := s }
        if o.paymentStatus == "Completed" then
          let db1 := (processRefund db o1).1
          (200, { db1 with orders := orderReplaceFirst db1.orders id o2 })
        else
          (200, { db with orders := orderReplaceFirst db.orders id o2 })

/-! ## Gateway payment verification -/

/-- The order update of a successful verification: on the first order whose
razorpay.orderId matches, set paymentId, signature and paymentStatus
Completed. -/
def orderUpdateByRzpFirst : List Order → String → String → String → List Order
  | [], _, _, _ => []
  | o :: os, oid, pid, sig =>
    match o.razorpay with
    | some r =>
      if r.orderId == oid then
        { o with razorpay := some { r with paymentId := some pid, signature := some sig }
                 paymentStatus := "Completed" } :: os
      else o :: orderUpdateByRzpFirst os oid pid sig
    | none => o :: orderUpdateByRzpFirst os oid pid sig

/-- The controller `verifyRazorpayPayment`: recompute the HMAC-SHA256 of
`orderId ++ "|" ++ paymentId` under the server secret (the HMAC primitive is
passed in as a function, abstracting `crypto.createHmac`), require an exact
match with the supplied signature, and only then mark the matching order's
payment Completed. -/
def verifyRazorpayPayment (hmacSha256 : String → String → String) (secret : String)
    (db : DB) (razorpay_order_id razorpay_payment_id razorpay_signature : String) :
    Nat × DB :=
  let body := razorpay_order_id ++ "|" ++ razorpay_payment_id
  let expectedSignature := hmacSha256 secret body
  if ¬ expectedSignature = razorpay_signature then (400, db)
  else
    (200, { db with orders := (orderUpdateByRzpFirst db.orders razorpay_order_id
              razorpay_payment_id razorpay_signature) })

/-! ## Stock-update lemmas -/

theorem variantIncFirst_map_vid : ∀ (vs : List Variant) (vid : Nat) (d : Int),
    (variantIncFirst vs vid d).map Variant.variantId = vs.map Variant.variantId
  | [], _, _ => rfl
  | v :: vs, vid, d => by
    by_cases h : v.variantId = vid
    · simp [variantIncFirst, h]
    · simp [variantIncFirst, h, variantIncFirst_map_vid vs vid d]

theorem find?_variantIncFirst_self : ∀ (vs : List Variant) (vid : Nat) (d : Int),
    (variantIncFirst vs vid d).find? (fun v => v.variantId == vid)
      = (vs.find? (fun v => v.variantId == vid)).map
          (fun v => { v with availableQuantity := v.availableQuantity + d })
  | [], _, _ => rfl
  | v :: vs, vid, d => by
    by_cases h : v.variantId = vid
    · simp [variantIncFirst, h, List.find?_cons_of_pos]
    · rw [variantIncFirst, if_neg (by simpa using h)]
      rw [List.find?_cons_of_neg _ (by simpa using h),
        List.find?_cons_of_neg _ (by simpa using h)]
      exact find?_variantIncFirst_self vs vid d

theorem find?_variantIncFirst_other (vid' vid : Nat) (h : vid' ≠ vid) :
    ∀ (vs : List Variant) (d : Int),
    (variantIncFirst vs vid d).find? (fun v => v.variantId == vid')
      = vs.find? (fun v => v.variantId == vid')
  | [], _ => rfl
  | v :: vs, d => by
    by_cases hv : v.variantId = vid
    · rw [variantIncFirst, if_pos (by simpa using hv)]
      rw [List.find?_cons_of_neg _ (by simp [hv]; exact fun hh => h hh.symm),
        List.find?_cons_of_neg _ (by simp [hv]; exact fun hh => h hh.symm)]
    · rw [variantIncFirst, if_neg (by simpa using hv)]
      by_cases hv' : v.variantId = vid'
      · rw [List.find?_cons_of_pos _ (by simpa using hv'),
          List.find?_cons_of_pos _ (by simpa using hv')]
      · rw [List.find?_cons_of_neg _ (by simpa using hv'),
          List.find?_cons_of_neg _ (by simpa using hv')]
        exact find?_variantIncFirst_other vid' vid h vs d

theorem variantIncFirst_any_vid : ∀ (vs : List Variant) (vid : Nat) (d : Int) (x : Nat),
    (variantIncFirst vs vid d).any (fun v => v.variantId == x)
      = vs.any (fun v => v.variantId == x)
  | [], _, _, _ => rfl
  | v :: vs, vid, d, x => by
    by_cases h : v.variantId = vid
    · simp [variantIncFirst, h]
    · rw [variantIncFirst, if_neg (by simpa using h), List.any_cons, List.any_cons,
        variantIncFirst_any_vid vs vid d x]

theorem productIncFirst_map_pid : ∀ (ps : List Product) (pid vid : Nat) (d : Int),
    (productIncFirst ps pid vid d).map Product.productId = ps.map Product.productId
  | [], _, _, _ => rfl
  | p :: ps, pid, vid, d => by
    by_cases h : (p.productId == pid && productHasVariant p vid) = true
    · simp [productIncFirst, h]
    · simp only [productIncFirst, if_neg h, List.map_cons]
      rw [productIncFirst_map_pid ps pid vid d]

/-- The update condition of `productIncFirst` over one product. -/
theorem productIncFirst_of_not_mem : ∀ (ps : List Product) (pid vid : Nat) (d : Int),
    ¬ pid ∈ ps.map Product.productId → productIncFirst ps pid vid d = ps
  | [], _, _, _, _ => rfl
  | p :: ps, pid, vid, d, h => by
    have hp : ¬ p.productId = pid := by
      intro hh
      exact h (by simp [hh])
    have hrest : ¬ pid ∈ ps.map Product.productId := by
      intro hh
      exact h (by simp [hh])
    rw [productIncFirst, if_neg (by simp [hp]),
      productIncFirst_of_not_mem ps pid vid d hrest]

/-- Whether some product carries the (productId, variantId) key with an
existing variant. -/
def hasKey (ps : List Product) (pid vid : Nat) : Bool :=
  ps.any (fun p => p.productId == pid && productHasVariant p vid)

theorem hasKey_productIncFirst : ∀ (ps : List Product) (pid vid : Nat) (d : Int)
    (pid' vid' : Nat),
    hasKey (productIncFirst ps pid vid d) pid' vid' = hasKey ps pid' vid'
  | [], _, _, _, _, _ => rfl
  | p :: ps, pid, vid, d, pid', vid' => by
    by_cases h : (p.productId == pid && productHasVariant p vid) = true
    · simp only [productIncFirst, if_pos h, hasKey, List.any_cons]
      rw [show productHasVariant
          { p with variants := variantIncFirst p.variants vid d } vid'
          = productHasVariant p vid' from variantIncFirst_any_vid p.variants vid d vid']
    · simp only [productIncFirst, if_neg h, hasKey, List.any_cons]
      have ih := hasKey_productIncFirst ps pid vid d pid' vid'
      simp only [hasKey] at ih
      rw [ih]

theorem qtyOf_productIncFirst_self : ∀ (ps : List Product) (pid vid : Nat) (d : Int),
    (ps.map Product.productId).Nodup →
    hasKey ps pid vid = true →
    qtyOf (productIncFirst ps pid vid d) pid vid = qtyOf ps pid vid + d
  | [], _, _, _, _, hk => by simp [hasKey] at hk
  | p :: ps, pid, vid, d, hnd, hk => by
    by_cases hc : (p.productId == pid && productHasVariant p vid) = true
    · have hpid : p.productId = pid := by
        have := (Bool.and_eq_true _ _).mp hc
        exact beq_iff_eq.mp this.1
      have hvar : productHasVariant p vid = true := ((Bool.and_eq_true _ _).mp hc).2
      obtain ⟨v, hv, hveq⟩ := List.any_eq_true.mp hvar
      have hfv : p.variants.find? (fun v => v.variantId == vid) |>.isSome := by
        rw [List.find?_isSome]
        exact ⟨v, hv, hveq⟩
      obtain ⟨v0, hv0⟩ := Option.isSome_iff_exists.mp hfv
      rw [productIncFirst, if_pos hc]
      simp only [qtyOf]
      rw [List.find?_cons_of_pos _ (by simpa using hpid),
        List.find?_cons_of_pos _ (by simpa using hpid)]
      simp only []
      rw [find?_variantIncFirst_self, hv0]
      rfl
    · by_cases hpid : p.productId = pid
      · exfalso
        have hvar : ¬ productHasVariant p vid = true := by
          intro hh
          exact hc (by simp [hpid, hh])
        have hrest : hasKey ps pid vid = true := by
          rcases List.any_eq_true.mp hk with ⟨q, hq, hqe⟩
          rcases List.mem_cons.mp hq with hq1 | hq2
          · subst hq1
            exact absurd hqe hc
          · exact List.any_eq_true.mpr ⟨q, hq2, hqe⟩
        rcases List.any_eq_true.mp hrest with ⟨q, hq, hqe⟩
        have hqpid : q.productId = pid := beq_iff_eq.mp ((Bool.and_eq_true _ _).mp hqe).1
        have : p.productId ∈ ps.map Product.productId := by
          rw [hpid, ← hqpid]
          exact List.mem_map_of_mem _ hq
        exact (List.nodup_cons.mp hnd).1 this
      · rw [productIncFirst, if_neg hc]
        simp only [qtyOf]
        rw [List.find?_cons_of_neg _ (by simpa using hpid),
          List.find?_cons_of_neg _ (by simpa using hpid)]
        have hrest : hasKey ps pid vid = true := by
          rcases List.any_eq_true.mp hk with ⟨q, hq, hqe⟩
          rcases List.mem_cons.mp hq with hq1 | hq2
          · subst hq1
            exact absurd hqe hc
          · exact List.any_eq_true.mpr ⟨q, hq2, hqe⟩
        have := qtyOf_productIncFirst_self ps pid vid d (List.nodup_cons.mp hnd).2 hrest
        simpa [qtyOf] using this

theorem qtyOf_productIncFirst_other : ∀ (ps : List Product) (pid vid : Nat) (d : Int)
    (pid' vid' : Nat), ¬ (pid = pid' ∧ vid = vid') →
    qtyOf (productIncFirst ps pid vid d) pid' vid' = qtyOf ps pid' vid'
  | [], _, _, _, _, _, _ => rfl
  | p :: ps, pid, vid, d, pid', vid', hne => by
    by_cases hc : (p.productId == pid && productHasVariant p vid) = true
    · have hpid : p.productId = pid := beq_iff_eq.mp ((Bool.and_eq_true _ _).mp hc).1
      rw [productIncFirst, if_pos hc]
      by_cases hp' : pid = pid'
      · have hv' : ¬ vid = vid' := fun hh => hne ⟨hp', hh⟩
        simp only [qtyOf]
        rw [List.find?_cons_of_pos _ (by simp [hpid, hp']),
          List.find?_cons_of_pos _ (by simp [hpid, hp'])]
        simp only []
        rw [find?_variantIncFirst_other vid' vid (fun hh => hv' hh.symm)]
      · simp only [qtyOf]
        rw [List.find?_cons_of_neg _ (by simp [hpid]; exact hp'),
          List.find?_cons_of_neg _ (by simp [hpid]; exact hp')]
    · rw [productIncFirst, if_neg hc]
      by_cases hp' : p.productId = pid'
      · simp only [qtyOf]
        rw [List.find?_cons_of_pos _ (by simpa using hp'),
          List.find?_cons_of_pos _ (by simpa using hp')]
      · simp only [qtyOf]
        rw [List.find?_cons_of_neg _ (by simpa using hp'),
          List.find?_cons_of_neg _ (by simpa using hp')]
        have := qtyOf_productIncFirst_other ps pid vid d pid' vid' hne
        simpa [qtyOf] using this

theorem stockFold_map_pid (f : OrderItem → Int) : ∀ (items : List OrderItem)
    (ps : List Product),
    (stockFold ps items f).map Product.productId = ps.map Product.productId
  | [], _ => rfl
  | i :: rest, ps => by
    rw [stockFold, stockFold_map_pid f rest, productIncFirst_map_pid]

theorem hasKey_stockFold (f : OrderItem → Int) : ∀ (items : List OrderItem)
    (ps : List Product) (pid vid : Nat),
    hasKey (stockFold ps items f) pid vid = hasKey ps pid vid
  | [], _, _, _ => rfl
  | i :: rest, ps, pid, vid => by
    rw [stockFold, hasKey_stockFold f rest, hasKey_productIncFirst]

theorem qtyOf_stockFold_other (f : OrderItem → Int) : ∀ (items : List OrderItem)
    (ps : List Product) (pid' vid' : Nat),
    (∀ i ∈ items, ¬ (i.productId = pid' ∧ i.variantId = vid')) →
    qtyOf (stockFold ps items f) pid' vid' = qtyOf ps pid' vid'
  | [], _, _, _, _ => rfl
  | i :: rest, ps, pid', vid', h => by
    rw [stockFold,
      qtyOf_stockFold_other f rest _ pid' vid' (fun j hj => h j (List.mem_cons_of_mem i hj)),
      qtyOf_productIncFirst_other _ _ _ _ _ _ (h i (List.mem_cons_self i rest))]

theorem qtyOf_stockFold_mem (f : OrderItem → Int) : ∀ (items : List OrderItem)
    (ps : List Product),
    (ps.map Product.productId).Nodup →
    (items.map (fun i => (i.productId, i.variantId))).Nodup →
    (∀ i ∈ items, hasKey ps i.productId i.variantId = true) →
    ∀ i ∈ items, qtyOf (stockFold ps items f) i.productId i.variantId
      = qtyOf ps i.productId i.variantId + f i
  | [], _, _, _, _, i, hi => absurd hi (List.not_mem_nil i)
  | j :: rest, ps, hnd, hkeys, hex, i, hi => by
    rw [stockFold]
    rcases List.mem_cons.mp hi with hij | hirest
    · subst hij
      have hother : ∀ r ∈ rest, ¬ (r.productId = i.productId ∧ r.variantId = i.variantId) := by
        intro r hr hcon
        have : (i.productId, i.variantId) ∈ rest.map (fun k => (k.productId, k.variantId)) := by
          rw [← hcon.1, ← hcon.2]
          exact List.mem_map_of_mem _ hr
        exact (List.nodup_cons.mp hkeys).1 this
      rw [qtyOf_stockFold_other f rest _ _ _ hother,
        qtyOf_productIncFirst_self ps i.productId i.variantId (f i) hnd
          (hex i (List.mem_cons_self i rest))]
    · have hne : ¬ (j.productId = i.productId ∧ j.variantId = i.variantId) := by
        intro hcon
        have : (j.productId, j.variantId) ∈ rest.map (fun k => (k.productId, k.variantId)) := by
          rw [hcon.1, hcon.2]
          exact List.mem_map_of_mem _ hirest
        exact (List.nodup_cons.mp hkeys).1 this
      have hnd1 : ((productIncFirst ps j.productId j.variantId (f j)).map
          Product.productId).Nodup := by
        rw [productIncFirst_map_pid]
        exact hnd
      have hex1 : ∀ r ∈ rest,
          hasKey (productIncFirst ps j.productId j.variantId (f j))
            r.productId r.variantId = true := by
        intro r hr
        rw [hasKey_productIncFirst]
        exact hex r (List.mem_cons_of_mem j hr)
      rw [qtyOf_stockFold_mem f rest _ hnd1 (List.nodup_cons.mp hkeys).2 hex1 i hirest,
        qtyOf_productIncFirst_other _ _ _ _ _ _ hne]

/-- Under unique product ids, the per-product findOne/findIndex/save restock
of the generic `Returned` branch coincides with the
`findOneAndUpdate`-based update. -/
theorem productIncReturnOne_eq : ∀ (ps : List Product) (pid vid : Nat) (d : Int),
    (ps.map Product.productId).Nodup →
    productIncReturnOne ps pid vid d = productIncFirst ps pid vid d
  | [], _, _, _, _ => rfl
  | p :: ps, pid, vid, d, hnd => by
    by_cases hp : p.productId = pid
    · by_cases hv : productHasVariant p vid = true
      · rw [productIncReturnOne, if_pos (by simpa using hp), if_pos hv,
          productIncFirst, if_pos (by simp [hp, hv])]
      · rw [productIncReturnOne, if_pos (by simpa using hp), if_neg hv,
          productIncFirst, if_neg (by simp [hv]),
          productIncFirst_of_not_mem ps pid vid d]
        rw [← hp]
        exact (List.nodup_cons.mp hnd).1
    · rw [productIncReturnOne, if_neg (by simpa using hp),
        productIncFirst, if_neg (by simp [hp]),
        productIncReturnOne_eq ps pid vid d (List.nodup_cons.mp hnd).2]

theorem stockFoldReturn_eq : ∀ (items : List OrderItem) (ps : List Product),
    (ps.map Product.productId).Nodup →
    stockFoldReturn ps items = stockFold ps items OrderItem.quantity
  | [], _, _ => rfl
  | i :: rest, ps, hnd => by
    rw [stockFoldReturn, stockFold, productIncReturnOne_eq ps _ _ _ hnd,
      stockFoldReturn_eq rest _ (by rw [productIncFirst_map_pid]; exact hnd)]

/-! ## Wallet and order store lemmas -/

theorem walletFind_replaceFirst_self : ∀ (ws : List Wallet) (uid : Nat) (w w' : Wallet),
    walletFind ws uid = some w → w'.userId = uid →
    walletFind (walletReplaceFirst ws uid w') uid = some w'
  | [], _, _, _, h, _ => by simp [walletFind] at h
  | w0 :: ws, uid, w, w', h, h' => by
    by_cases h0 : w0.userId = uid
    · rw [walletReplaceFirst, if_pos (by simpa using h0), walletFind,
        List.find?_cons_of_pos _ (by simpa using h')]
    · rw [walletReplaceFirst, if_neg (by simpa using h0), walletFind,
        List.find?_cons_of_neg _ (by simpa using h0)]
      rw [walletFind, List.find?_cons_of_neg _ (by simpa using h0)] at h
      exact walletFind_replaceFirst_self ws uid w w' h h'

theorem walletFind_append_right : ∀ (ws : List Wallet) (uid : Nat) (w : Wallet),
    walletFind ws uid = none → w.userId = uid →
    walletFind (ws ++ [w]) uid = some w
  | [], uid, w, _, hw => by
    rw [List.nil_append, walletFind, List.find?_cons_of_pos _ (by simpa using hw)]
  | w0 :: ws, uid, w, h, hw => by
    have h0 : ¬ w0.userId = uid := by
      intro hh
      rw [walletFind, List.find?_cons_of_pos _ (by simpa using hh)] at h
      exact Option.noConfusion h
    rw [List.cons_append, walletFind, List.find?_cons_of_neg _ (by simpa using h0)]
    rw [walletFind, List.find?_cons_of_neg _ (by simpa using h0)] at h
    exact walletFind_append_right ws uid w h hw

theorem orderFind_eq_id (os : List Order) (id : Nat) (o : Order)
    (h : orderFind os id = some o) : o.orderId = id := by
  have := List.find?_some h
  simpa using this

theorem orderFind_replaceFirst_self : ∀ (os : List Order) (id : Nat) (o o' : Order),
    orderFind os id = some o → o'.orderId = id →
    orderFind (orderReplaceFirst os id o') id = some o'
  | [], _, _, _, h, _ => by simp [orderFind] at h
  | o0 :: os, id, o, o', h, h' => by
    by_cases h0 : o0.orderId = id
    · rw [orderReplaceFirst, if_pos (by simpa using h0), orderFind,
        List.find?_cons_of_pos _ (by simpa using h')]
    · rw [orderReplaceFirst, if_neg (by simpa using h0), orderFind,
        List.find?_cons_of_neg _ (by simpa using h0)]
      rw [orderFind, List.find?_cons_of_neg _ (by simpa using h0)] at h
      exact orderFind_replaceFirst_self os id o o' h h'

/-! ## processRefund lemmas -/

theorem processRefund_balanceOf (db : DB) (o : Order) :
    balanceOf (processRefund db o).1.wallets o.userId
      = balanceOf db.wallets o.userId + o.finalAmount := by
  rcases h : walletFind db.wallets o.userId with _ | w
  · simp only [processRefund, h, balanceOf]
    rw [walletFind_append_right db.wallets o.userId _ h rfl]
    simp
  · have hw : w.userId = o.userId := by
      have := List.find?_some h
      simpa using this
    simp only [processRefund, h, balanceOf]
    rw [walletFind_replaceFirst_self db.wallets o.userId w
      { userId := w.userId, balance := w.balance + o.finalAmount
        transactions := w.transactions ++ [refundTx db.freshId o] } h hw]

theorem processRefund_txsOf (db : DB) (o : Order) :
    txsOf (processRefund db o).1.wallets o.userId
      = txsOf db.wallets o.userId ++ [refundTx db.freshId o] := by
  rcases h : walletFind db.wallets o.userId with _ | w
  · simp only [processRefund, h, txsOf]
    rw [walletFind_append_right db.wallets o.userId _ h rfl]
    simp
  · have hw : w.userId = o.userId := by
      have := List.find?_some h
      simpa using this
    simp only [processRefund, h, txsOf]
    rw [walletFind_replaceFirst_self db.wallets o.userId w
      { userId := w.userId, balance := w.balance + o.finalAmount
        transactions := w.transactions ++ [refundTx db.freshId o] } h hw]

theorem processRefund_products (db : DB) (o : Order) :
    (processRefund db o).1.products = db.products := by
  rcases h : walletFind db.wallets o.userId with _ | w <;> simp [processRefund, h]

theorem processRefund_orders (db : DB) (o : Order) :
    (processRefund db o).1.orders = db.orders := by
  rcases h : walletFind db.wallets o.userId with _ | w <;> simp [processRefund, h]

theorem processRefund_freshId (db : DB) (o : Order) :
    (processRefund db o).1.freshId = db.freshId + 1 := by
  rcases h : walletFind db.wallets o.userId with _ | w <;> simp [processRefund, h]

/-! ## Endpoint reduction lemmas -/

theorem orderStatusUpdate_cancel_reject (db : DB) (id : Nat) (o : Order)
    (hfind : orderFind db.orders id = some o)
    (h : o.orderStatus = "Shipped" ∨ o.orderStatus = "Delivered") :
    orderStatusUpdate db id (some "Cancelled") = (400, db) := by
  rcases h with h | h <;> simp [orderStatusUpdate, hfind, validStatuses, h]

theorem orderStatusUpdate_cancel_ok (db : DB) (id : Nat) (o : Order)
    (hfind : orderFind db.orders id = some o)
    (h1 : o.orderStatus ≠ "Shipped") (h2 : o.orderStatus ≠ "Delivered") :
    orderStatusUpdate db id (some "Cancelled")
      = (200, { cancelEffects db o with
                 orders := orderReplaceFirst (cancelEffects db o).orders id
                             { o with orderStatus := "Cancelled" } }) := by
  simp only [orderStatusUpdate, hfind]
  simp [validStatuses, h1, h2]

theorem orderStatusUpdate_returned_ok (db : DB) (id : Nat) (o : Order)
    (hfind : orderFind db.orders id = some o)
    (hdel : o.orderStatus = "Delivered") :
    orderStatusUpdate db id (some "Returned")
      = (200, { returnedEffects db o with
                 orders := orderReplaceFirst (returnedEffects db o).orders id
                             { o with orderStatus := "Returned" } }) := by
  simp only [orderStatusUpdate, hfind]
  simp [validStatuses, hdel]

theorem returnOrder_reject_notDelivered (db : DB) (now : Int) (id : Nat)
    (status returnReason returnDescription : Option String) (o : Order)
    (hfind : orderFind db.orders id = some o) (h : o.orderStatus ≠ "Delivered") :
    returnOrderStatusUpdate db now id status returnReason returnDescription = (400, db) := by
  rcases status with _ | s
  · rfl
  · by_cases hs : s = "Returned"
    · by_cases hrd : returnReason.getD "" = "" ∨ returnDescription.getD "" = ""
      · simp [returnOrderStatusUpdate, hfind, hs, hrd]
      · simp [returnOrderStatusUpdate, hfind, hs, hrd, h]
    · simp [returnOrderStatusUpdate, hfind, hs]

theorem returnOrder_reject_missingReason (db : DB) (now : Int) (id : Nat)
    (returnReason returnDescription : Option String) (o : Order)
    (hfind : orderFind db.orders id = some o)
    (hrd : returnReason.getD "" = "" ∨ returnDescription.getD "" = "") :
    returnOrderStatusUpdate db now id (some "Returned") returnReason returnDescription
      = (400, db) := by
  simp [returnOrderStatusUpdate, hfind, hrd]

/-- The order as saved with return details recorded. -/
def withReturnDetails (o : Order) (reason desc : String) (now : Int) : Order :=
  { o with returnDetails := some ⟨reason, desc, now⟩ }

/-- The order as saved by a successful return: return details recorded and
status Returned. -/
def returnedOrder (o : Order) (reason desc : String) (now : Int) : Order :=
  { withReturnDetails o reason desc now with orderStatus := "Returned" }

theorem returnOrder_ok (db : DB) (now : Int) (id : Nat) (reason desc : String) (o : Order)
    (hfind : orderFind db.orders id = some o) (hdel : o.orderStatus = "Delivered")
    (hr : reason ≠ "") (hd : desc ≠ "") :
    returnOrderStatusUpdate db now id (some "Returned") (some reason) (some desc)
      = (if o.paymentStatus = "Completed" then
          (200,
            { (processRefund db (withReturnDetails o reason desc now)).1 with
                orders := (orderReplaceFirst
                  (processRefund db (withReturnDetails o reason desc now)).1.orders
                  id (returnedOrder o reason desc now)) })
         else
          (200, { db with orders := (orderReplaceFirst db.orders id
                    (returnedOrder o reason desc now)) })) := by
  by_cases hc : o.paymentStatus = "Completed"
  · simp [returnOrderStatusUpdate, hfind, hr, hd, hdel, hc, withReturnDetails, returnedOrder]
  · simp [returnOrderStatusUpdate, hfind, hr, hd, hdel, hc, withReturnDetails, returnedOrder]

theorem cancelEffects_products (db : DB) (o : Order) :
    (cancelEffects db o).products = stockFold db.products o.products OrderItem.quantity := by
  by_cases h : o.paymentMethod = "RazorpayX" ∧ o.paymentStatus = "Completed"
  · simp only [cancelEffects, if_pos h, processRefund_products]
  · simp only [cancelEffects, if_neg h]

theorem cancelEffects_orders (db : DB) (o : Order) :
    (cancelEffects db o).orders = db.orders := by
  by_cases h : o.paymentMethod = "RazorpayX" ∧ o.paymentStatus = "Completed"
  · simp only [cancelEffects, if_pos h, processRefund_orders]
  · simp only [cancelEffects, if_neg h]

theorem cancelEffects_wallets_neg (db : DB) (o : Order)
    (h : ¬ (o.paymentMethod = "RazorpayX" ∧ o.paymentStatus = "Completed")) :
    (cancelEffects db o).wallets = db.wallets := by
  simp only [cancelEffects, if_neg h]

theorem cancelEffects_balanceOf_pos (db : DB) (o : Order)
    (h : o.paymentMethod = "RazorpayX" ∧ o.paymentStatus = "Completed") :
    balanceOf (cancelEffects db o).wallets o.userId
      = balanceOf db.wallets o.userId + o.finalAmount := by
  simp only [cancelEffects, if_pos h]
  exact processRefund_balanceOf _ o

theorem cancelEffects_txsOf_pos (db : DB) (o : Order)
    (h : o.paymentMethod = "RazorpayX" ∧ o.paymentStatus = "Completed") :
    txsOf (cancelEffects db o).wallets o.userId
      = txsOf db.wallets o.userId ++ [refundTx db.freshId o] := by
  simp only [cancelEffects, if_pos h]
  exact processRefund_txsOf _ o

theorem returnedEffects_products (db : DB) (o : Order) :
    (returnedEffects db o).products = stockFoldReturn db.products o.products := by
  by_cases h : o.paymentStatus = "Completed"
  · simp only [returnedEffects, if_pos h, processRefund_products]
  · simp only [returnedEffects, if_neg h]

theorem returnedEffects_orders (db : DB) (o : Order) :
    (returnedEffects db o).orders = db.orders := by
  by_cases h : o.paymentStatus = "Completed"
  · simp only [returnedEffects, if_pos h, processRefund_orders]
  · simp only [returnedEffects, if_neg h]

theorem returnedEffects_wallets_neg (db : DB) (o : Order)
    (h : ¬ o.paymentStatus = "Completed") :
    (returnedEffects db o).wallets = db.wallets := by
  simp only [returnedEffects, if_neg h]

theorem returnedEffects_balanceOf_pos (db : DB) (o : Order)
    (h : o.paymentStatus = "Completed") :
    balanceOf (returnedEffects db o).wallets o.userId
      = balanceOf db.wallets o.userId + o.finalAmount := by
  simp only [returnedEffects, if_pos h]
  exact processRefund_balanceOf _ o

theorem returnedEffects_txsOf_pos (db : DB) (o : Order)
    (h : o.paymentStatus = "Completed") :
    txsOf (returnedEffects db o).wallets o.userId
      = txsOf db.wallets o.userId ++ [refundTx db.freshId o] := by
  simp only [returnedEffects, if_pos h]
  exact processRefund_txsOf _ o

/-! ## Concrete sample world used by counterexamples and witnesses -/

/-- An empty state. -/
def emptyDB : DB :=
  { products := [], orders := [], wallets := [], carts := [], coupons := [], freshId := 0 }

/-- Variant 1 of product 1: price 50, 10 in stock. -/
def exVariant : Variant := { variantId := 1, price := 50, availableQuantity := 10 }

/-- A line item ordering 2 units of product 1 / variant 1. -/
def exItem : OrderItem :=
  { productId := 1, variantId := 1, name := "x", quantity := 2, variant := exVariant }

/-- The catalog holding just product 1 with variant 1. -/
def exProducts : List Product := [{ productId := 1, variants := [exVariant] }]

/-- A delivered, payment-pending order for user 7 over `exItem`. -/
def exDeliveredOrder : Order :=
  { orderId := 1, userId := 7, products := [exItem], shippingAddress := "a"
    paymentMethod := "COD", totalAmount := 100, coupon := none, discountAmount := 0
    finalAmount := 100, orderDate := 0, orderStatus := "Delivered"
    paymentStatus := "Pending", razorpay := none, returnDetails := none }

/-- State holding the catalog and the delivered order. -/
def exDB : DB :=
  { products := exProducts, orders := [exDeliveredOrder], wallets := [], carts := []
    coupons := [], freshId := 100 }

/-- The sample order as a completed RazorpayX payment in a given status. -/
def exRzpOrder (st : String) : Order :=
  { exDeliveredOrder with
      orderStatus := st, paymentMethod := "RazorpayX", paymentStatus := "Completed" }

/-- State with a Processing RazorpayX/Completed order and a wallet holding 20. -/
def exDB5 : DB :=
  { exDB with
      orders := [exRzpOrder "Processing"]
      wallets := [{ userId := 7, balance := 20, transactions := [] }] }

/-- State with an already-Cancelled RazorpayX/Completed order and a wallet
already holding one 100 refund. -/
def exDB10 : DB :=
  { exDB with
      orders := [exRzpOrder "Cancelled"]
      wallets := [{ userId := 7, balance := 100
                    transactions := [refundTx 99 exDeliveredOrder] }] }

/-! ## Claim theorems -/

/-- C8: gateway payment verification recomputes the HMAC-SHA256 of
`externalOrderId + "|" + paymentId` under the server secret and requires an
exact match with the supplied signature; on any mismatch the request is
rejected with 400 and the state — in particular every order's
paymentStatus — is unchanged. -/
theorem claim_C8 (hmacSha256 : String → String → String) (secret : String) (db : DB)
    (oid pid sig : String)
    (h : hmacSha256 secret (oid ++ "|" ++ pid) ≠ sig) :
    verifyRazorpayPayment hmacSha256 secret db oid pid sig = (400, db) := by
  simp [verifyRazorpayPayment, h]

/-- Witness for C8: a concrete mismatching signature is rejected with the
state untouched. -/
theorem claim_C8_witness :
    verifyRazorpayPayment (fun _ _ => "aa") "secret" exDB "o1" "p1" "bb" = (400, exDB) :=
  claim_C8 (fun _ _ => "aa") "secret" exDB "o1" "p1" "bb" (by decide)

/-- C7: a wallet debit whose amount exceeds the wallet balance (or that
targets a user with no wallet) is rejected with 400 before any state
mutation: the state is unchanged and no order is created. -/
theorem claim_C7 (db : DB) (now : Int) (req : WalletOrderReq)
    (h : ∀ w, walletFind db.wallets req.userId = some w → w.balance < req.finalAmount) :
    (placeWalletOrder db now req).status = 400 ∧ (placeWalletOrder db now req).db = db
      ∧ (placeWalletOrder db now req).order = none := by
  by_cases hv : req.userId = 0 ∨ req.products = [] ∨ req.shippingAddress = ""
  · simp [placeWalletOrder, hv]
  · rcases hw : walletFind db.wallets req.userId with _ | w
    · simp [placeWalletOrder, hv, hw]
    · have hb := h w hw
      simp [placeWalletOrder, hv, hw, hb]

/-- Witness for C7: a user with balance 5 cannot place a wallet order of
300; state and orders are untouched. -/
theorem claim_C7_witness :
    (placeWalletOrder
      { exDB with wallets := [{ userId := 7, balance := 5, transactions := [] }] } 0
      { userId := 7, products := [exItem], shippingAddress := "a", couponCode := none
        totalAmount := 300, finalAmount := 300 }).status = 400
    ∧ (placeWalletOrder
      { exDB with wallets := [{ userId := 7, balance := 5, transactions := [] }] } 0
      { userId := 7, products := [exItem], shippingAddress := "a", couponCode := none
        totalAmount := 300, finalAmount := 300 }).db
      = { exDB with wallets := [{ userId := 7, balance := 5, transactions := [] }] }
    ∧ (placeWalletOrder
      { exDB with wallets := [{ userId := 7, balance := 5, transactions := [] }] } 0
      { userId := 7, products := [exItem], shippingAddress := "a", couponCode := none
        totalAmount := 300, finalAmount := 300 }).order = none :=
  claim_C7 _ 0 _ (by decide)

/-- A product whose requested variant 1 is out of stock (0 available)
while its other variant 2 has ample stock (100 available). -/
def bugProduct : Product :=
  { productId := 1
    variants := [{ variantId := 1, price := 10, availableQuantity := 0 },
                 { variantId := 2, price := 10, availableQuantity := 100 }] }

/-- A line item requesting 5 units of the out-of-stock variant 1. -/
def bugItem : OrderItem :=
  { productId := 1, variantId := 1, name := "x", quantity := 5
    variant := { variantId := 1, price := 10, availableQuantity := 0 } }

/-- State holding `bugProduct` and a wallet ample enough for the wallet
entry point. -/
def bugDB : DB :=
  { products := [bugProduct], orders := []
    wallets := [{ userId := 7, balance := 500, transactions := [] }]
    carts := [], coupons := [], freshId := 1 }

/-- The generic order request for `bugItem`. -/
def bugReq : PlaceOrderReq :=
  { userId := 7, products := [bugItem], shippingAddress := "a"
    paymentMethod := "COD", couponCode := none, totalAmount := 50
    finalAmount := none, razorpayOrderId := none, status := none }

/-- The wallet order request for `bugItem`. -/
def bugWReq : WalletOrderReq :=
  { userId := 7, products := [bugItem], shippingAddress := "a"
    couponCode := none, totalAmount := 50, finalAmount := 50 }

/-- C4 is violated by the code: the availability `findOne` lacks
`$elemMatch`, so a line item requesting 5 of variant 1 — which has 0
available — still passes the check because variant 2 of the same product
satisfies the quantity condition.  Both entry points create the order (201)
and the positional `$inc` drives variant 1's availableQuantity to −5,
instead of the claimed 400 with no stock decremented. -/
theorem claim_C4_bug :
    ¬ bugItem.quantity ≤ qtyOf bugDB.products bugItem.productId bugItem.variantId
    ∧ stockOk bugDB.products bugItem = true
    ∧ (placeOrder bugDB 0 bugReq).status = 201
    ∧ qtyOf (placeOrder bugDB 0 bugReq).db.products 1 1 = -5
    ∧ (placeWalletOrder bugDB 0 bugWReq).status = 201
    ∧ qtyOf (placeWalletOrder bugDB 0 bugWReq).db.products 1 1 = -5 :=
  ⟨by decide, by decide, by decide, by decide, by decide, by decide⟩

/-- C9: `processRefund` is not idempotent: running it twice on the same
order appends two separate refund transactions of amount finalAmount with
distinct fresh transaction ids and credits the owner's balance twice by
finalAmount. -/
theorem claim_C9 (db : DB) (o : Order) :
    balanceOf (processRefund (processRefund db o).1 o).1.wallets o.userId
      = balanceOf db.wallets o.userId + o.finalAmount + o.finalAmount
    ∧ txsOf (processRefund (processRefund db o).1 o).1.wallets o.userId
      = txsOf db.wallets o.userId ++ [refundTx db.freshId o, refundTx (db.freshId + 1) o]
    ∧ (refundTx db.freshId o).transaction_id ≠ (refundTx (db.freshId + 1) o).transaction_id
    ∧ (refundTx db.freshId o).amount = o.finalAmount
    ∧ (refundTx (db.freshId + 1) o).amount = o.finalAmount
    ∧ (refundTx db.freshId o).type = "refund"
    ∧ (refundTx (db.freshId + 1) o).type = "refund" := by
  have hb1 := processRefund_balanceOf db o
  have hb2 := processRefund_balanceOf (processRefund db o).1 o
  have ht1 := processRefund_txsOf db o
  have ht2 := processRefund_txsOf (processRefund db o).1 o
  have hf := processRefund_freshId db o
  rw [hf] at ht2
  refine ⟨by rw [hb2, hb1], by rw [ht2, ht1, List.append_assoc]; rfl,
    by simp only [refundTx]; omega, rfl, rfl, rfl, rfl⟩

/-- C5: the Cancelled transition of the status-update endpoint: it is
rejected with 400 and mutates nothing when the order is Shipped or
Delivered; otherwise it returns 200, restores every line item's
availableQuantity by exactly its ordered quantity, refunds finalAmount to
the owner's wallet exactly when paymentMethod is RazorpayX and paymentStatus
is Completed, and saves the order as Cancelled. -/
theorem claim_C5 (db : DB) (id : Nat) (o : Order)
    (hfind : orderFind db.orders id = some o)
    (hnd : (db.products.map Product.productId).Nodup)
    (hkeys : (o.products.map (fun i => (i.productId, i.variantId))).Nodup)
    (hex : ∀ i ∈ o.products, hasKey db.products i.productId i.variantId = true) :
    ((o.orderStatus = "Shipped" ∨ o.orderStatus = "Delivered") →
      orderStatusUpdate db id (some "Cancelled") = (400, db))
    ∧ (o.orderStatus ≠ "Shipped" → o.orderStatus ≠ "Delivered" →
        (orderStatusUpdate db id (some "Cancelled")).1 = 200
        ∧ (∀ i ∈ o.products,
            qtyOf (orderStatusUpdate db id (some "Cancelled")).2.products
              i.productId i.variantId
              = qtyOf db.products i.productId i.variantId + i.quantity)
        ∧ (o.paymentMethod = "RazorpayX" ∧ o.paymentStatus = "Completed" →
            balanceOf (orderStatusUpdate db id (some "Cancelled")).2.wallets o.userId
              = balanceOf db.wallets o.userId + o.finalAmount
            ∧ txsOf (orderStatusUpdate db id (some "Cancelled")).2.wallets o.userId
              = txsOf db.wallets o.userId ++ [refundTx db.freshId o])
        ∧ (¬ (o.paymentMethod = "RazorpayX" ∧ o.paymentStatus = "Completed") →
            (orderStatusUpdate db id (some "Cancelled")).2.wallets = db.wallets)
        ∧ orderStatusOf (orderStatusUpdate db id (some "Cancelled")).2.orders id
            = some "Cancelled") := by
  refine ⟨fun h => orderStatusUpdate_cancel_reject db id o hfind h, fun h1 h2 => ?_⟩
  rw [orderStatusUpdate_cancel_ok db id o hfind h1 h2]
  refine ⟨rfl, ?_, ?_, ?_, ?_⟩
  · intro i hi
    show qtyOf (cancelEffects db o).products i.productId i.variantId = _
    rw [cancelEffects_products]
    exact qtyOf_stockFold_mem OrderItem.quantity o.products db.products hnd hkeys hex i hi
  · intro hpm
    exact ⟨cancelEffects_balanceOf_pos db o hpm, cancelEffects_txsOf_pos db o hpm⟩
  · intro hpm
    exact cancelEffects_wallets_neg db o hpm
  · show orderStatusOf (orderReplaceFirst (cancelEffects db o).orders id
      { o with orderStatus := "Cancelled" }) id = some "Cancelled"
    rw [cancelEffects_orders]
    unfold orderStatusOf
    rw [orderFind_replaceFirst_self db.orders id o { o with orderStatus := "Cancelled" }
      hfind (orderFind_eq_id db.orders id o hfind)]
    rfl

/-- Witness for C5: cancelling a Processing RazorpayX/Completed order
succeeds, restocks variant 1 of product 1 from 10 to 12 and refunds 100 onto
the wallet balance of 20. -/
theorem claim_C5_witness :
    (orderStatusUpdate exDB5 1 (some "Cancelled")).1 = 200
    ∧ qtyOf (orderStatusUpdate exDB5 1 (some "Cancelled")).2.products 1 1 = 12
    ∧ balanceOf (orderStatusUpdate exDB5 1 (some "Cancelled")).2.wallets 7 = 120 := by
  have h := claim_C5 exDB5 1 (exRzpOrder "Processing")
    (by decide) (by decide) (by decide) (by decide)
  have h2 := h.2 (by decide) (by decide)
  refine ⟨h2.1, ?_, ?_⟩
  · exact (h2.2.1 exItem (by decide)).trans (by decide)
  · refine ((h2.2.2.1 ⟨rfl, rfl⟩).1).trans ?_
    show balanceOf exDB5.wallets 7 + (100 : Rat) = 120
    norm_num [balanceOf, walletFind, exDB5, exDB, List.find?]

/-- C10: the generic status-update endpoint does not enforce terminal
states: an order already Cancelled (or Returned, or Payment Failed) still
accepts a status update to Cancelled, which re-runs the full restock of
every line item and, for a completed RazorpayX payment, appends another
wallet refund of finalAmount. -/
theorem claim_C10 (db : DB) (id : Nat) (o : Order)
    (hfind : orderFind db.orders id = some o)
    (hterm : o.orderStatus = "Cancelled" ∨ o.orderStatus = "Returned" ∨
      o.orderStatus = "Payment Failed")
    (hnd : (db.products.map Product.productId).Nodup)
    (hkeys : (o.products.map (fun i => (i.productId, i.variantId))).Nodup)
    (hex : ∀ i ∈ o.products, hasKey db.products i.productId i.variantId = true) :
    (orderStatusUpdate db id (some "Cancelled")).1 = 200
    ∧ (∀ i ∈ o.products,
        qtyOf (orderStatusUpdate db id (some "Cancelled")).2.products
          i.productId i.variantId
          = qtyOf db.products i.productId i.variantId + i.quantity)
    ∧ (o.paymentMethod = "RazorpayX" ∧ o.paymentStatus = "Completed" →
        balanceOf (orderStatusUpdate db id (some "Cancelled")).2.wallets o.userId
          = balanceOf db.wallets o.userId + o.finalAmount
        ∧ txsOf (orderStatusUpdate db id (some "Cancelled")).2.wallets o.userId
          = txsOf db.wallets o.userId ++ [refundTx db.freshId o])
    ∧ orderStatusOf (orderStatusUpdate db id (some "Cancelled")).2.orders id
        = some "Cancelled" := by
  have h1 : o.orderStatus ≠ "Shipped" := by
    rcases hterm with h | h | h <;> rw [h] <;> decide
  have h2 : o.orderStatus ≠ "Delivered" := by
    rcases hterm with h | h | h <;> rw [h] <;> decide
  rw [orderStatusUpdate_cancel_ok db id o hfind h1 h2]
  refine ⟨rfl, ?_, ?_, ?_⟩
  · intro i hi
    show qtyOf (cancelEffects db o).products i.productId i.variantId = _
    rw [cancelEffects_products]
    exact qtyOf_stockFold_mem OrderItem.quantity o.products db.products hnd hkeys hex i hi
  · intro hpm
    exact ⟨cancelEffects_balanceOf_pos db o hpm, cancelEffects_txsOf_pos db o hpm⟩
  · show orderStatusOf (orderReplaceFirst (cancelEffects db o).orders id
      { o with orderStatus := "Cancelled" }) id = some "Cancelled"
    rw [cancelEffects_orders]
    unfold orderStatusOf
    rw [orderFind_replaceFirst_self db.orders id o { o with orderStatus := "Cancelled" }
      hfind (orderFind_eq_id db.orders id o hfind)]
    rfl

/-- Witness for C10: an already-Cancelled RazorpayX/Completed order whose
wallet already holds one 100 refund is cancelled again: stock climbs from 10
to 12 and the balance from 100 to 200. -/
theorem claim_C10_witness :
    (orderStatusUpdate exDB10 1 (some "Cancelled")).1 = 200
    ∧ qtyOf (orderStatusUpdate exDB10 1 (some "Cancelled")).2.products 1 1 = 12
    ∧ balanceOf (orderStatusUpdate exDB10 1 (some "Cancelled")).2.wallets 7 = 200 := by
  have h := claim_C10 exDB10 1 (exRzpOrder "Cancelled")
    (by decide) (by decide) (by decide) (by decide) (by decide)
  refine ⟨h.1, ?_, ?_⟩
  · exact (h.2.1 exItem (by decide)).trans (by decide)
  · refine ((h.2.2.1 ⟨rfl, rfl⟩).1).trans ?_
    show balanceOf exDB10.wallets 7 + (100 : Rat) = 200
    norm_num [balanceOf, walletFind, exDB10, exDB, List.find?]

/-- C2 counterexample: the dedicated return endpoint does NOT restore
stock.  Returning the delivered sample order succeeds (200) yet variant 1 of
product 1 stays at 10 instead of climbing by the ordered quantity 2, so the
claimed restock does not happen. -/
theorem claim_C2_counterexample :
    (returnOrderStatusUpdate exDB 0 1 (some "Returned") (some "damaged")
      (some "broken")).1 = 200
    ∧ qtyOf (returnOrderStatusUpdate exDB 0 1 (some "Returned") (some "damaged")
        (some "broken")).2.products 1 1 = 10
    ∧ ¬ qtyOf (returnOrderStatusUpdate exDB 0 1 (some "Returned") (some "damaged")
        (some "broken")).2.products 1 1
        = qtyOf exDB.products 1 1 + exItem.quantity :=
  ⟨by decide, by decide, by decide⟩

/-- C2 (amended): the dedicated return endpoint rejects with 400 (state
unchanged) any order that is not Delivered; for a Delivered order it
requires both a reason and a description (else 400), records returnDetails,
sets the status to Returned, performs NO stock restoration, and appends
exactly one refund transaction of finalAmount to the owner's wallet
precisely when paymentStatus was Completed. -/
theorem claim_C2 (db : DB) (now : Int) (id : Nat) (o : Order)
    (status returnReason returnDescription : Option String) (reason desc : String)
    (hfind : orderFind db.orders id = some o) :
    (o.orderStatus ≠ "Delivered" →
      returnOrderStatusUpdate db now id status returnReason returnDescription = (400, db))
    ∧ (o.orderStatus = "Delivered" →
        ((returnReason.getD "" = "" ∨ returnDescription.getD "" = "") →
          returnOrderStatusUpdate db now id (some "Returned") returnReason
            returnDescription = (400, db))
        ∧ (reason ≠ "" → desc ≠ "" →
            (returnOrderStatusUpdate db now id (some "Returned") (some reason)
              (some desc)).1 = 200
            ∧ (returnOrderStatusUpdate db now id (some "Returned") (some reason)
                (some desc)).2.products = db.products
            ∧ orderStatusOf (returnOrderStatusUpdate db now id (some "Returned")
                (some reason) (some desc)).2.orders id = some "Returned"
            ∧ returnDetailsOf (returnOrderStatusUpdate db now id (some "Returned")
                (some reason) (some desc)).2.orders id = some ⟨reason, desc, now⟩
            ∧ (o.paymentStatus = "Completed" →
                balanceOf (returnOrderStatusUpdate db now id (some "Returned")
                    (some reason) (some desc)).2.wallets o.userId
                  = balanceOf db.wallets o.userId + o.finalAmount
                ∧ txsOf (returnOrderStatusUpdate db now id (some "Returned")
                    (some reason) (some desc)).2.wallets o.userId
                  = txsOf db.wallets o.userId ++ [refundTx db.freshId o])
            ∧ (o.paymentStatus ≠ "Completed" →
                (returnOrderStatusUpdate db now id (some "Returned") (some reason)
                  (some desc)).2.wallets = db.wallets))) := by
  refine ⟨fun h => returnOrder_reject_notDelivered db now id status returnReason
    returnDescription o hfind h, fun hdel => ⟨fun hrd =>
      returnOrder_reject_missingReason db now id returnReason returnDescription o
        hfind hrd, fun hr hd => ?_⟩⟩
  rw [returnOrder_ok db now id reason desc o hfind hdel hr hd]
  by_cases hc : o.paymentStatus = "Completed"
  · rw [if_pos hc]
    refine ⟨rfl, ?_, ?_, ?_, fun _ => ⟨?_, ?_⟩, fun hn => absurd hc hn⟩
    · exact processRefund_products db (withReturnDetails o reason desc now)
    · show orderStatusOf (orderReplaceFirst
        (processRefund db (withReturnDetails o reason desc now)).1.orders id
        (returnedOrder o reason desc now)) id = some "Returned"
      rw [processRefund_orders]
      unfold orderStatusOf
      rw [orderFind_replaceFirst_self db.orders id o (returnedOrder o reason desc now)
        hfind (orderFind_eq_id db.orders id o hfind)]
      rfl
    · show returnDetailsOf (orderReplaceFirst
        (processRefund db (withReturnDetails o reason desc now)).1.orders id
        (returnedOrder o reason desc now)) id = some ⟨reason, desc, now⟩
      rw [processRefund_orders]
      unfold returnDetailsOf
      rw [orderFind_replaceFirst_self db.orders id o (returnedOrder o reason desc now)
        hfind (orderFind_eq_id db.orders id o hfind)]
      rfl
    · exact processRefund_balanceOf db (withReturnDetails o reason desc now)
    · exact processRefund_txsOf db (withReturnDetails o reason desc now)
  · rw [if_neg hc]
    refine ⟨rfl, rfl, ?_, ?_, fun hp => absurd hp hc, fun _ => rfl⟩
    · show orderStatusOf (orderReplaceFirst db.orders id
        (returnedOrder o reason desc now)) id = some "Returned"
      unfold orderStatusOf
      rw [orderFind_replaceFirst_self db.orders id o (returnedOrder o reason desc now)
        hfind (orderFind_eq_id db.orders id o hfind)]
      rfl
    · show returnDetailsOf (orderReplaceFirst db.orders id
        (returnedOrder o reason desc now)) id = some ⟨reason, desc, now⟩
      unfold returnDetailsOf
      rw [orderFind_replaceFirst_self db.orders id o (returnedOrder o reason desc now)
        hfind (orderFind_eq_id db.orders id o hfind)]
      rfl

/-- Witness for C2: on the delivered sample order, a missing reason is
rejected with the state unchanged; a well-formed return succeeds, leaves the
catalog untouched, records returnDetails, sets status Returned, and (payment
was Pending) leaves the wallets unchanged. -/
theorem claim_C2_witness :
    returnOrderStatusUpdate exDB 0 1 (some "Returned") none (some "broken") = (400, exDB)
    ∧ (returnOrderStatusUpdate exDB 0 1 (some "Returned") (some "damaged")
        (some "broken")).1 = 200
    ∧ (returnOrderStatusUpdate exDB 0 1 (some "Returned") (some "damaged")
        (some "broken")).2.products = exDB.products
    ∧ orderStatusOf (returnOrderStatusUpdate exDB 0 1 (some "Returned")
        (some "damaged") (some "broken")).2.orders 1 = some "Returned"
    ∧ returnDetailsOf (returnOrderStatusUpdate exDB 0 1 (some "Returned")
        (some "damaged") (some "broken")).2.orders 1 = some ⟨"damaged", "broken", 0⟩
    ∧ (returnOrderStatusUpdate exDB 0 1 (some "Returned") (some "damaged")
        (some "broken")).2.wallets = exDB.wallets := by
  have h := claim_C2 exDB 0 1 exDeliveredOrder (some "Returned") none (some "broken")
    "damaged" "broken" (by decide)
  have hd := h.2 rfl
  have hok := hd.2 (by decide) (by decide)
  exact ⟨hd.1 (Or.inl rfl), hok.1, hok.2.1, hok.2.2.1, hok.2.2.2.1,
    hok.2.2.2.2.2 (by decide)⟩

/-- The wallet outcome of `processRefund` depends only on the wallet store,
the id supply, and the order's owner, amount, and id. -/
theorem processRefund_wallets_ext (db1 db2 : DB) (o1 o2 : Order)
    (hw : db1.wallets = db2.wallets) (hf : db1.freshId = db2.freshId)
    (hu : o1.userId = o2.userId) (ha : o1.finalAmount = o2.finalAmount)
    (hi : o1.orderId = o2.orderId) :
    (processRefund db1 o1).1.wallets = (processRefund db2 o2).1.wallets := by
  simp only [processRefund, refundTx, hw, hf, hu, ha, hi]
  cases walletFind db2.wallets o2.userId <;> rfl

/-- C3 counterexample: on the same delivered start state the two return
paths do not produce identical side effects: the generic status-update
endpoint restores stock (10 → 12) but records no returnDetails, while the
dedicated return endpoint leaves stock at 10 and records returnDetails. -/
theorem claim_C3_counterexample :
    (orderStatusUpdate exDB 1 (some "Returned")).1 = 200
    ∧ (returnOrderStatusUpdate exDB 0 1 (some "Returned") (some "damaged")
        (some "broken")).1 = 200
    ∧ qtyOf (orderStatusUpdate exDB 1 (some "Returned")).2.products 1 1 = 12
    ∧ qtyOf (returnOrderStatusUpdate exDB 0 1 (some "Returned") (some "damaged")
        (some "broken")).2.products 1 1 = 10
    ∧ returnDetailsOf (orderStatusUpdate exDB 1 (some "Returned")).2.orders 1 = none
    ∧ returnDetailsOf (returnOrderStatusUpdate exDB 0 1 (some "Returned")
        (some "damaged") (some "broken")).2.orders 1 = some ⟨"damaged", "broken", 0⟩
    ∧ ¬ (orderStatusUpdate exDB 1 (some "Returned")).2
        = (returnOrderStatusUpdate exDB 0 1 (some "Returned") (some "damaged")
            (some "broken")).2 :=
  ⟨by decide, by decide, by decide, by decide, by decide, by decide, by decide⟩

/-- C3 (amended): for the same Delivered order the two return paths agree
on the HTTP status, the final order status, and the wallet state (refund of
finalAmount exactly when paymentStatus is Completed), but their side effects
differ: the generic endpoint restocks every line item and leaves
returnDetails unrecorded, while the dedicated endpoint records returnDetails
and performs no stock restoration. -/
theorem claim_C3_amended (db : DB) (now : Int) (id : Nat) (o : Order)
    (reason desc : String)
    (hfind : orderFind db.orders id = some o) (hdel : o.orderStatus = "Delivered")
    (hr : reason ≠ "") (hd : desc ≠ "") :
    (orderStatusUpdate db id (some "Returned")).1 = 200
    ∧ (returnOrderStatusUpdate db now id (some "Returned") (some reason)
        (some desc)).1 = 200
    ∧ (orderStatusUpdate db id (some "Returned")).2.products
        = stockFoldReturn db.products o.products
    ∧ (returnOrderStatusUpdate db now id (some "Returned") (some reason)
        (some desc)).2.products = db.products
    ∧ orderStatusOf (orderStatusUpdate db id (some "Returned")).2.orders id
        = some "Returned"
    ∧ orderStatusOf (returnOrderStatusUpdate db now id (some "Returned")
        (some reason) (some desc)).2.orders id = some "Returned"
    ∧ returnDetailsOf (orderStatusUpdate db id (some "Returned")).2.orders id
        = o.returnDetails
    ∧ returnDetailsOf (returnOrderStatusUpdate db now id (some "Returned")
        (some reason) (some desc)).2.orders id = some ⟨reason, desc, now⟩
    ∧ (orderStatusUpdate db id (some "Returned")).2.wallets
        = (returnOrderStatusUpdate db now id (some "Returned") (some reason)
            (some desc)).2.wallets := by
  rw [orderStatusUpdate_returned_ok db id o hfind hdel,
    returnOrder_ok db now id reason desc o hfind hdel hr hd]
  by_cases hc : o.paymentStatus = "Completed"
  all_goals first
  | rw [if_pos hc]
  | rw [if_neg hc]
  · refine ⟨rfl, rfl, returnedEffects_products db o,
      processRefund_products db (withReturnDetails o reason desc now), ?_, ?_, ?_, ?_, ?_⟩
    · show orderStatusOf (orderReplaceFirst (returnedEffects db o).orders id
        { o with orderStatus := "Returned" }) id = some "Returned"
      rw [returnedEffects_orders]
      unfold orderStatusOf
      rw [orderFind_replaceFirst_self db.orders id o { o with orderStatus := "Returned" }
        hfind (orderFind_eq_id db.orders id o hfind)]
      rfl
    · show orderStatusOf (orderReplaceFirst
        (processRefund db (withReturnDetails o reason desc now)).1.orders id
        (returnedOrder o reason desc now)) id = some "Returned"
      rw [processRefund_orders]
      unfold orderStatusOf
      rw [orderFind_replaceFirst_self db.orders id o (returnedOrder o reason desc now)
        hfind (orderFind_eq_id db.orders id o hfind)]
      rfl
    · show returnDetailsOf (orderReplaceFirst (returnedEffects db o).orders id
        { o with orderStatus := "Returned" }) id = o.returnDetails
      rw [returnedEffects_orders]
      unfold returnDetailsOf
      rw [orderFind_replaceFirst_self db.orders id o { o with orderStatus := "Returned" }
        hfind (orderFind_eq_id db.orders id o hfind)]
    · show returnDetailsOf (orderReplaceFirst
        (processRefund db (withReturnDetails o reason desc now)).1.orders id
        (returnedOrder o reason desc now)) id = some ⟨reason, desc, now⟩
      rw [processRefund_orders]
      unfold returnDetailsOf
      rw [orderFind_replaceFirst_self db.orders id o (returnedOrder o reason desc now)
        hfind (orderFind_eq_id db.orders id o hfind)]
      rfl
    · show (returnedEffects db o).wallets
        = (processRefund db (withReturnDetails o reason desc now)).1.wallets
      simp only [returnedEffects, if_pos hc]
      exact processRefund_wallets_ext _ db o (withReturnDetails o reason desc now)
        rfl rfl rfl rfl rfl
  · refine ⟨rfl, rfl, returnedEffects_products db o, rfl, ?_, ?_, ?_, ?_, ?_⟩
    · show orderStatusOf (orderReplaceFirst (returnedEffects db o).orders id
        { o with orderStatus := "Returned" }) id = some "Returned"
      rw [returnedEffects_orders]
      unfold orderStatusOf
      rw [orderFind_replaceFirst_self db.orders id o { o with orderStatus := "Returned" }
        hfind (orderFind_eq_id db.orders id o hfind)]
      rfl
    · show orderStatusOf (orderReplaceFirst db.orders id
        (returnedOrder o reason desc now)) id = some "Returned"
      unfold orderStatusOf
      rw [orderFind_replaceFirst_self db.orders id o (returnedOrder o reason desc now)
        hfind (orderFind_eq_id db.orders id o hfind)]
      rfl
    · show returnDetailsOf (orderReplaceFirst (returnedEffects db o).orders id
        { o with orderStatus := "Returned" }) id = o.returnDetails
      rw [returnedEffects_orders]
      unfold returnDetailsOf
      rw [orderFind_replaceFirst_self db.orders id o { o with orderStatus := "Returned" }
        hfind (orderFind_eq_id db.orders id o hfind)]
    · show returnDetailsOf (orderReplaceFirst db.orders id
        (returnedOrder o reason desc now)) id = some ⟨reason, desc, now⟩
      unfold returnDetailsOf
      rw [orderFind_replaceFirst_self db.orders id o (returnedOrder o reason desc now)
        hfind (orderFind_eq_id db.orders id o hfind)]
      rfl
    · show (returnedEffects db o).wallets = ({ db with orders := (orderReplaceFirst
        db.orders id (returnedOrder o reason desc now)) }).wallets
      simp only [returnedEffects, if_neg hc]

/-- Witness for C3 (amended): the sample delivered order run through both
paths: both return 200, the generic path's products equal the per-item
restock, the dedicated path's products are untouched, and the wallet states
agree. -/
theorem claim_C3_witness :
    (orderStatusUpdate exDB 1 (some "Returned")).1 = 200
    ∧ (returnOrderStatusUpdate exDB 0 1 (some "Returned") (some "damaged")
        (some "broken")).1 = 200
    ∧ (orderStatusUpdate exDB 1 (some "Returned")).2.products
        = stockFoldReturn exDB.products exDeliveredOrder.products
    ∧ (returnOrderStatusUpdate exDB 0 1 (some "Returned") (some "damaged")
        (some "broken")).2.products = exDB.products
    ∧ (orderStatusUpdate exDB 1 (some "Returned")).2.wallets
        = (returnOrderStatusUpdate exDB 0 1 (some "Returned") (some "damaged")
            (some "broken")).2.wallets := by
  have h := claim_C3_amended exDB 0 1 exDeliveredOrder "damaged" "broken"
    (by decide) (by decide) (by decide) (by decide)
  exact ⟨h.1, h.2.1, h.2.2.1, h.2.2.2.1, h.2.2.2.2.2.2.2.2⟩

/-- An active percentage coupon: 10 percent off, valid until time 100. -/
def exCoupon : Coupon :=
  { name := "SAVE10", isListed := "active", expireOn := 100
    CouponType := "percentage", offerPrice := 10 }

/-- Sample state carrying the coupon. -/
def exDB6 : DB := { exDB with coupons := [exCoupon] }

/-- C6: a discount is applied only if the coupon is listed active and its
validity end is strictly after now; a percentage coupon prices
subtotal × offerValue / 100 and a flat one offerValue, both clamped to
min(discount, subtotal); an unknown, inactive, or expired code yields
discount 0 and leaves both order-creation entry points behaving exactly as
if no coupon was supplied. -/
theorem claim_C6 (db : DB) (now : Int) (code : String) (t : Rat) (c : Coupon)
    (req : PlaceOrderReq) (wreq : WalletOrderReq)
    (hcode : code ≠ "")
    (hreq : req.couponCode = some code) (hwreq : wreq.couponCode = some code) :
    (couponFindOne db.coupons code now = some c →
      c.name = code ∧ c.isListed = "active" ∧ now < c.expireOn
      ∧ (couponDiscount db.coupons (some code) now t).2
          = min (if c.CouponType = "percentage" then t * c.offerPrice / 100
                 else c.offerPrice) t)
    ∧ ((∀ c0 ∈ db.coupons, c0.name = code →
          c0.isListed ≠ "active" ∨ c0.expireOn ≤ now) →
        (couponDiscount db.coupons (some code) now t).2 = 0
        ∧ placeOrder db now req = placeOrder db now { req with couponCode := none }
        ∧ placeWalletOrder db now wreq
            = placeWalletOrder db now { wreq with couponCode := none }) := by
  constructor
  · intro hfound
    have hpred := List.find?_some hfound
    rw [Bool.and_eq_true, Bool.and_eq_true] at hpred
    obtain ⟨⟨hn, ha⟩, he⟩ := hpred
    refine ⟨beq_iff_eq.mp hn, beq_iff_eq.mp ha, of_decide_eq_true he, ?_⟩
    simp only [couponDiscount, if_neg hcode, hfound]
  · intro hbad
    have hnone : couponFindOne db.coupons code now = none := by
      rw [couponFindOne, List.find?_eq_none]
      intro c0 hc0
      intro hp
      rw [Bool.and_eq_true, Bool.and_eq_true] at hp
      obtain ⟨⟨hn, ha⟩, he⟩ := hp
      rcases hbad c0 hc0 (beq_iff_eq.mp hn) with hb | hb
      · exact hb (beq_iff_eq.mp ha)
      · exact absurd (of_decide_eq_true he) (not_lt.mpr hb)
    have hz : couponDiscount db.coupons (some code) now t = (none, 0) := by
      simp [couponDiscount, if_neg hcode, hnone]
    refine ⟨by rw [hz], ?_, ?_⟩
    · show placeOrder db now req = placeOrder db now { req with couponCode := none }
      simp only [placeOrder, hreq]
      rw [show couponDiscount db.coupons (some code) now req.totalAmount = (none, 0) from
        by simp [couponDiscount, if_neg hcode, hnone]]
      rfl
    · show placeWalletOrder db now wreq
        = placeWalletOrder db now { wreq with couponCode := none }
      simp only [placeWalletOrder, hwreq]
      rw [show couponDiscount db.coupons (some code) now wreq.totalAmount = (none, 0) from
        by simp [couponDiscount, if_neg hcode, hnone]]
      rfl

/-- Witness for C6: the active 10-percent coupon prices a 200 subtotal at
discount 20, while an unknown code yields 0 and a checkout identical to one
with no coupon at all. -/
theorem claim_C6_witness :
    (couponDiscount exDB6.coupons (some "SAVE10") 0 200).2 = 20
    ∧ (couponDiscount exDB6.coupons (some "NOPE") 0 200).2 = 0
    ∧ placeOrder exDB6 0
        { userId := 7, products := [exItem], shippingAddress := "a"
          paymentMethod := "COD", couponCode := some "NOPE", totalAmount := 100
          finalAmount := none, razorpayOrderId := none, status := none }
      = placeOrder exDB6 0
        { userId := 7, products := [exItem], shippingAddress := "a"
          paymentMethod := "COD", couponCode := none, totalAmount := 100
          finalAmount := none, razorpayOrderId := none, status := none } := by
  have h1 := claim_C6 exDB6 0 "SAVE10" 200 exCoupon
    { userId := 7, products := [exItem], shippingAddress := "a"
      paymentMethod := "COD", couponCode := some "SAVE10", totalAmount := 100
      finalAmount := none, razorpayOrderId := none, status := none }
    { userId := 7, products := [exItem], shippingAddress := "a"
      couponCode := some "SAVE10", totalAmount := 100, finalAmount := 100 }
    (by decide) rfl rfl
  have h2 := claim_C6 exDB6 0 "NOPE" 200 exCoupon
    { userId := 7, products := [exItem], shippingAddress := "a"
      paymentMethod := "COD", couponCode := some "NOPE", totalAmount := 100
      finalAmount := none, razorpayOrderId := none, status := none }
    { userId := 7, products := [exItem], shippingAddress := "a"
      couponCode := some "NOPE", totalAmount := 100, finalAmount := 100 }
    (by decide) rfl rfl
  have h2c := h2.2 (by decide)
  refine ⟨?_, h2c.1, h2c.2.1⟩
  refine ((h1.1 (by decide)).2.2.2).trans ?_
  norm_num [exCoupon]

/-- The discount computed at checkout is nonnegative and clamped to the
subtotal, provided the subtotal and the offer values are nonnegative. -/
theorem couponDiscount_bounds (coupons : List Coupon) (oc : Option String) (now : Int)
    (t : Rat) (ht : 0 ≤ t) (hoff : ∀ c ∈ coupons, 0 ≤ c.offerPrice) :
    0 ≤ (couponDiscount coupons oc now t).2 ∧ (couponDiscount coupons oc now t).2 ≤ t := by
  rcases oc with _ | code
  · exact ⟨le_refl 0, ht⟩
  · by_cases hc : code = ""
    · subst hc
      exact ⟨le_refl 0, ht⟩
    · rcases hf : couponFindOne coupons code now with _ | c
      · simp only [couponDiscount, if_neg hc, hf]
        exact ⟨le_refl 0, ht⟩
      · have hoffc := hoff c (List.mem_of_find?_eq_some hf)
        simp only [couponDiscount, if_neg hc, hf]
        refine ⟨le_min ?_ ht, min_le_right _ _⟩
        by_cases hp : c.CouponType = "percentage"
        · rw [if_pos hp]
          exact div_nonneg (mul_nonneg ht hoffc) (by norm_num)
        · rw [if_neg hp]
          exact hoffc

/-- Request for the sample item with a client-supplied finalAmount of 999
against a totalAmount of 100. -/
def exReq999 : PlaceOrderReq :=
  { userId := 7, products := [exItem], shippingAddress := "a", paymentMethod := "COD"
    couponCode := none, totalAmount := 100, finalAmount := some 999
    razorpayOrderId := none, status := none }

/-- C1 counterexample: placeOrder persists a client-supplied finalAmount
verbatim.  With totalAmount 100, no coupon (discount 0) and a supplied
finalAmount of 999, the stored finalAmount is 999, which is neither
max(totalAmount − discountAmount, 0) = 100 nor ≤ totalAmount. -/
theorem claim_C1_counterexample :
    (placeOrder exDB 0 exReq999).status = 201
    ∧ ((placeOrder exDB 0 exReq999).order.map Order.finalAmount) = some 999
    ∧ ((placeOrder exDB 0 exReq999).order.map Order.totalAmount) = some 100
    ∧ ((placeOrder exDB 0 exReq999).order.map Order.discountAmount) = some 0
    ∧ ¬ (999 : Rat) = max ((100 : Rat) - 0) 0
    ∧ ¬ (999 : Rat) ≤ (100 : Rat) :=
  ⟨by decide, by decide, by decide, by decide, by norm_num, by norm_num⟩

/-- C1 (amended): for every order persisted by either entry point,
discountAmount is nonnegative and never exceeds totalAmount, and the stored
finalAmount equals max(totalAmount − discountAmount, 0) — hence lies within
[0, totalAmount] — PROVIDED the request does not supply a nonzero
finalAmount (and amounts and offer values are nonnegative); a supplied
nonzero finalAmount is stored verbatim and may violate these bounds. -/
theorem claim_C1_amended (db : DB) (now : Int) (req : PlaceOrderReq)
    (wreq : WalletOrderReq)
    (hreq : req.finalAmount = none ∨ req.finalAmount = some 0)
    (ht : 0 ≤ req.totalAmount)
    (hwz : wreq.finalAmount = 0) (hwt : 0 ≤ wreq.totalAmount)
    (hoff : ∀ c ∈ db.coupons, 0 ≤ c.offerPrice) :
    (∀ o, (placeOrder db now req).order = some o →
      0 ≤ o.discountAmount ∧ o.discountAmount ≤ o.totalAmount
      ∧ o.finalAmount = max (o.totalAmount - o.discountAmount) 0
      ∧ 0 ≤ o.finalAmount ∧ o.finalAmount ≤ o.totalAmount)
    ∧ (∀ o, (placeWalletOrder db now wreq).order = some o →
      0 ≤ o.discountAmount ∧ o.discountAmount ≤ o.totalAmount
      ∧ o.finalAmount = max (o.totalAmount - o.discountAmount) 0
      ∧ 0 ≤ o.finalAmount ∧ o.finalAmount ≤ o.totalAmount) := by
  constructor
  · intro o ho
    obtain ⟨hd0, hd1⟩ := couponDiscount_bounds db.coupons req.couponCode now
      req.totalAmount ht hoff
    by_cases hv : req.userId = 0 ∨ req.products = [] ∨ req.shippingAddress = ""
        ∨ req.paymentMethod = ""
    · simp [placeOrder, hv] at ho
    · by_cases hall : req.products.all (stockOk db.products) = true
      · simp only [placeOrder, if_neg hv, if_neg (not_not_intro hall)] at ho
        rw [apply_ite OrderResult.order, ite_self] at ho
        obtain rfl := (Option.some.inj ho).symm
        have hfe : (jsOrRat req.finalAmount (req.totalAmount -
            (couponDiscount db.coupons req.couponCode now req.totalAmount).2))
            = req.totalAmount -
              (couponDiscount db.coupons req.couponCode now req.totalAmount).2 := by
          rcases hreq with h0 | h0 <;> simp [jsOrRat, h0]
        exact ⟨hd0, hd1, hfe.trans (max_eq_left (sub_nonneg.mpr hd1)).symm,
          le_of_le_of_eq (sub_nonneg.mpr hd1) hfe.symm,
          le_of_eq_of_le hfe (sub_le_self _ hd0)⟩
      · simp only [placeOrder, if_neg hv, if_pos hall] at ho
        exact Option.noConfusion ho
  · intro o ho
    obtain ⟨hd0, hd1⟩ := couponDiscount_bounds db.coupons wreq.couponCode now
      wreq.totalAmount hwt hoff
    by_cases hv : wreq.userId = 0 ∨ wreq.products = [] ∨ wreq.shippingAddress = ""
    · simp [placeWalletOrder, hv] at ho
    · rcases hw : walletFind db.wallets wreq.userId with _ | w
      · simp [placeWalletOrder, hv, hw] at ho
      · by_cases hb : w.balance < wreq.finalAmount
        · simp [placeWalletOrder, hv, hw, hb] at ho
        · by_cases hall : wreq.products.all (stockOk db.products) = true
          · simp only [placeWalletOrder, if_neg hv, hw, if_neg hb,
              if_neg (not_not_intro hall)] at ho
            obtain rfl := (Option.some.inj ho).symm
            have hfe : (if wreq.finalAmount = 0 then wreq.totalAmount -
                (couponDiscount db.coupons wreq.couponCode now wreq.totalAmount).2
                else wreq.finalAmount)
                = wreq.totalAmount -
                  (couponDiscount db.coupons wreq.couponCode now wreq.totalAmount).2 :=
              if_pos hwz
            exact ⟨hd0, hd1, hfe.trans (max_eq_left (sub_nonneg.mpr hd1)).symm,
              le_of_le_of_eq (sub_nonneg.mpr hd1) hfe.symm,
              le_of_eq_of_le hfe (sub_le_self _ hd0)⟩
          · simp only [placeWalletOrder, if_neg hv, hw, if_neg hb, if_pos hall] at ho
            exact Option.noConfusion ho

/-- Witness for C1 (amended): with no client-supplied finalAmount, the
order stored by each entry point satisfies
finalAmount = max(totalAmount − discountAmount, 0). -/
theorem claim_C1_witness :
    ((placeOrder { exDB with
        wallets := [{ userId := 7, balance := 500, transactions := [] }] } 0
      { userId := 7, products := [exItem], shippingAddress := "a"
        paymentMethod := "COD", couponCode := none, totalAmount := 100
        finalAmount := none, razorpayOrderId := none
        status := none }).order.map Order.finalAmount)
      = ((placeOrder { exDB with
          wallets := [{ userId := 7, balance := 500, transactions := [] }] } 0
        { userId := 7, products := [exItem], shippingAddress := "a"
          paymentMethod := "COD", couponCode := none, totalAmount := 100
          finalAmount := none, razorpayOrderId := none
          status := none }).order.map
            (fun o => max (o.totalAmount - o.discountAmount) 0))
    ∧ ((placeWalletOrder { exDB with
        wallets := [{ userId := 7, balance := 500, transactions := [] }] } 0
      { userId := 7, products := [exItem], shippingAddress := "a"
        couponCode := none, totalAmount := 100
        finalAmount := 0 }).order.map Order.finalAmount)
      = ((placeWalletOrder { exDB with
          wallets := [{ userId := 7, balance := 500, transactions := [] }] } 0
        { userId := 7, products := [exItem], shippingAddress := "a"
          couponCode := none, totalAmount := 100
          finalAmount := 0 }).order.map
            (fun o => max (o.totalAmount - o.discountAmount) 0)) := by
  have h := claim_C1_amended
    { exDB with wallets := [{ userId := 7, balance := 500, transactions := [] }] } 0
    { userId := 7, products := [exItem], shippingAddress := "a"
      paymentMethod := "COD", couponCode := none, totalAmount := 100
      finalAmount := none, razorpayOrderId := none, status := none }
    { userId := 7, products := [exItem], shippingAddress := "a"
      couponCode := none, totalAmount := 100, finalAmount := 0 }
    (Or.inl rfl) (by norm_num) rfl (by norm_num)
    (by intro c hc; simp [exDB] at hc)
  constructor
  · rcases ho : (placeOrder { exDB with
        wallets := [{ userId := 7, balance := 500, transactions := [] }] } 0
      { userId := 7, products := [exItem], shippingAddress := "a"
        paymentMethod := "COD", couponCode := none, totalAmount := 100
        finalAmount := none, razorpayOrderId := none, status := none }).order
      with _ | o
    · rfl
    · exact congrArg some (h.1 o ho).2.2.1
  · rcases ho : (placeWalletOrder { exDB with
        wallets := [{ userId := 7, balance := 500, transactions := [] }] } 0
      { userId := 7, products := [exItem], shippingAddress := "a"
        couponCode := none, totalAmount := 100, finalAmount := 0 }).order
      with _ | o
    · rfl
    · exact congrArg some (h.2 o ho).2.2.1

end Spectrax
